import Mathlib

/-!
Verification of the `benchmark_ot` OTT solver adapter (`src/solvers/ott.py`).

The adapter is benchopt glue around the external `ott-jax` library: it stores
the problem arrays, wraps a jittable `_sinkhorn` function, ahead-of-time
compiles it in `pre_run_hook`, invokes the compiled artifact in `run`, and
projects the transport-plan matrix in `get_result`.

Modelling choices:
* arrays are total functions over `Fin` types (shapes live in the types);
  floating point is idealised as `ℝ`;
* the external OTT library (point-cloud geometry, linear problem, log-domain
  Sinkhorn iteration) is modelled from its documented behaviour, at the
  configuration the adapter uses (`lse_mode = true`; `threshold = 0` disables
  early stopping, so the solver runs its full `max_iterations` budget);
* each Python method becomes a pure function on `SolverState`; a method that
  can raise (missing attribute) returns an `Option`;
* JAX specifics are modelled structurally: a jitted function carries its
  `static_argnames`; lowering at concrete arrays binds only their shapes
  (the type indices `n m d`) plus the static values `eps` and `n_iter`, and
  the compiled artifact re-takes the array arguments at call time.
-/

namespace OTTBench

/- ------------------------------------------------------------------ -/
/- Module imports (source lines 1-13): which imports sit inside the
   `safe_import_context()` guarded region.                             -/
/- ------------------------------------------------------------------ -/

/-- The import statements of `src/solvers/ott.py`, by imported module. -/
inductive ModuleImport where
  | benchopt_BaseSolver
  | benchopt_safe_import_context
  | numpy
  | jax
  | jax_numpy
  | ott_geometry_pointcloud
  | ott_solvers_linear_sinkhorn
  | ott_problems_linear_linear_problem
  deriving DecidableEq, Fintype

/-- Imports performed at module top level, outside the guarded region:
source line 1, `from benchopt import BaseSolver, safe_import_context`. -/
def importsOutsideGuard : List ModuleImport :=
  [.benchopt_BaseSolver, .benchopt_safe_import_context]

/-- Imports performed inside `with safe_import_context() as import_ctx:`
(source lines 6-13): numpy, jax, jax.numpy, and the three ott modules. -/
def importsInsideGuard : List ModuleImport :=
  [.numpy, .jax, .jax_numpy, .ott_geometry_pointcloud,
   .ott_solvers_linear_sinkhorn, .ott_problems_linear_linear_problem]

/-- Whether an imported module belongs to the numerical backend / solver
library (numpy, jax, ott), as opposed to the harness package `benchopt`. -/
def ModuleImport.isBackend : ModuleImport → Bool
  | .benchopt_BaseSolver => false
  | .benchopt_safe_import_context => false
  | _ => true

/- ------------------------------------------------------------------ -/
/- Model of the external OTT library, at the adapter's configuration.  -/
/- ------------------------------------------------------------------ -/

/-- `pointcloud.PointCloud(x, y, epsilon=eps)`: two point clouds in a shared
`d`-dimensional feature space plus the entropic regularisation strength. -/
structure PointCloud (n m d : ℕ) where
  x : Fin n → Fin d → ℝ
  y : Fin m → Fin d → ℝ
  epsilon : ℝ

/-- The point-cloud geometry's cost matrix: squared Euclidean distance
(OTT's default cost function for `PointCloud`). -/
noncomputable def PointCloud.cost (g : PointCloud n m d) (i : Fin n) (j : Fin m) : ℝ :=
  ∑ k, (g.x i k - g.y j k) ^ 2

/-- `linear_problem.LinearProblem(geom, a, b)`: geometry plus marginals. -/
structure LinearProblem (n m d : ℕ) where
  geom : PointCloud n m d
  a : Fin n → ℝ
  b : Fin m → ℝ

/-- The solver's output object (`SinkhornOutput`): the dual potentials
together with the problem they solve.  The transport-plan matrix is NOT a
stored field; it is the derived attribute `SinkhornOutput.matrix` below. -/
structure SinkhornOutput (n m d : ℕ) where
  f : Fin n → ℝ
  g : Fin m → ℝ
  ot_prob : LinearProblem n m d

/-- The derived `.matrix` attribute of the output object: the transport plan
recovered from the potentials, `exp((f_i + g_j - C_ij) / eps)`. -/
noncomputable def SinkhornOutput.matrix (o : SinkhornOutput n m d)
    (i : Fin n) (j : Fin m) : ℝ :=
  Real.exp ((o.f i + o.g j - o.ot_prob.geom.cost i j) / o.ot_prob.geom.epsilon)

/-- The configuration record of `sinkhorn.Sinkhorn(threshold=..., lse_mode=...,
max_iterations=...)`. -/
structure Sinkhorn where
  threshold : ℝ
  lse_mode : Bool
  max_iterations : ℕ

/-- Log-sum-exp, the primitive of the numerically-stable iteration mode. -/
noncomputable def logsumexp {k : ℕ} (v : Fin k → ℝ) : ℝ :=
  Real.log (∑ j, Real.exp (v j))

/-- One full log-domain Sinkhorn iteration on the pair of potentials
`(f, g)`: update `f` from `g` against marginal `a`, then `g` from the new
`f` against marginal `b`. -/
noncomputable def sinkhornStep (p : LinearProblem n m d)
    (fg : (Fin n → ℝ) × (Fin m → ℝ)) : (Fin n → ℝ) × (Fin m → ℝ) :=
  let eps := p.geom.epsilon
  let f := fun i =>
    eps * Real.log (p.a i) -
      eps * logsumexp (fun j => (fg.2 j - p.geom.cost i j) / eps)
  let g := fun j =>
    eps * Real.log (p.b j) -
      eps * logsumexp (fun i => (f i - p.geom.cost i j) / eps)
  (f, g)

/-- Running the configured solver on a problem: iterate the log-domain update
from zero potentials and package the output object.  With `threshold = 0`
(the only configuration the adapter ever builds) no early stopping occurs and
the full `max_iterations` budget is always executed, which is what this model
implements. -/
noncomputable def Sinkhorn.solve (cfg : Sinkhorn) (p : LinearProblem n m d) :
    SinkhornOutput n m d :=
  let fg := (sinkhornStep p)^[cfg.max_iterations] (fun _ => 0, fun _ => 0)
  { f := fg.1, g := fg.2, ot_prob := p }

/- ------------------------------------------------------------------ -/
/- The adapter (`class Solver(BaseSolver)`).                           -/
/- ------------------------------------------------------------------ -/

/-- The jittable function defined inside `set_objective` (source lines
39-48): build the linear problem over the point clouds and run the Sinkhorn
solver with `threshold=0, lse_mode=True, max_iterations=10 * n_iter + 1`,
returning the solver's output object `out` itself. -/
noncomputable def sinkhornFn {n m d : ℕ}
    (x : Fin n → Fin d → ℝ) (y : Fin m → Fin d → ℝ)
    (a : Fin n → ℝ) (b : Fin m → ℝ) (eps : ℝ) (n_iter : ℕ) :
    SinkhornOutput n m d :=
  Sinkhorn.solve
    { threshold := 0, lse_mode := true, max_iterations := 10 * n_iter + 1 }
    { geom := { x := x, y := y, epsilon := eps }, a := a, b := b }

/-- A jit-wrapped function (`jax.jit(_sinkhorn, static_argnames=...)`): the
traced function together with the names of its static (non-traced)
arguments. -/
structure Jitted (n m d : ℕ) where
  fn : (Fin n → Fin d → ℝ) → (Fin m → Fin d → ℝ) →
       (Fin n → ℝ) → (Fin m → ℝ) → ℝ → ℕ → SinkhornOutput n m d
  static_argnames : List String

/-- The value stored in `self.sinkhorn` by `set_objective`:
`jax.jit(_sinkhorn, static_argnames=('eps', 'n_iter'))`. -/
noncomputable def jaxJitSinkhorn (n m d : ℕ) : Jitted n m d :=
  { fn := sinkhornFn, static_argnames := ["eps", "n_iter"] }

/-- An ahead-of-time compiled artifact (`.lower(...).compile()`): the traced
function with the static argument values `eps` and `n_iter` baked in.  The
array arguments are bound only by shape (the type indices `n m d`); their
values are supplied again at call time. -/
structure Compiled (n m d : ℕ) where
  fn : (Fin n → Fin d → ℝ) → (Fin m → Fin d → ℝ) →
       (Fin n → ℝ) → (Fin m → ℝ) → ℝ → ℕ → SinkhornOutput n m d
  eps : ℝ
  n_iter : ℕ

/-- Calling a compiled artifact on the (traced) array arguments: applies the
underlying function at the baked static values. -/
noncomputable def Compiled.call (c : Compiled n m d)
    (x : Fin n → Fin d → ℝ) (y : Fin m → Fin d → ℝ)
    (a : Fin n → ℝ) (b : Fin m → ℝ) : SinkhornOutput n m d :=
  c.fn x y a b c.eps c.n_iter

/-- `J.lower(x, y, a, b, eps, n_iter).compile()`: lowering at concrete
arguments binds the abstract shapes of the arrays (already fixed by the type
indices here) and the concrete values of the static arguments. -/
noncomputable def Jitted.lower (J : Jitted n m d)
    (_x : Fin n → Fin d → ℝ) (_y : Fin m → Fin d → ℝ)
    (_a : Fin n → ℝ) (_b : Fin m → ℝ) (eps : ℝ) (n_iter : ℕ) :
    Compiled n m d :=
  { fn := J.fn, eps := eps, n_iter := n_iter }

/-- The adapter instance's attributes.  `reg` is the benchopt parameter;
`x y a b` are the arrays stored by `set_objective`; `sinkhorn` is the jitted
function; `sinkhorn_compile` models `self._sinkhorn_compile` and `out` models
`self.out`, both `none` while the Python attribute does not exist yet. -/
structure SolverState (n m d : ℕ) where
  reg : ℝ
  x : Fin n → Fin d → ℝ
  y : Fin m → Fin d → ℝ
  a : Fin n → ℝ
  b : Fin m → ℝ
  sinkhorn : Jitted n m d
  sinkhorn_compile : Option (Compiled n m d)
  out : Option (SinkhornOutput n m d)

/-- A fresh adapter instance as instantiated by the harness with parameter
`reg`.  The array and function fields hold placeholder values standing for
Python attributes that do not exist before `set_objective`; no theorem reads
them before `set_objective` overwrites them. -/
noncomputable def Solver.init (n m d : ℕ) (reg : ℝ) : SolverState n m d :=
  { reg := reg
    x := fun _ _ => 0, y := fun _ _ => 0, a := fun _ => 0, b := fun _ => 0
    sinkhorn := jaxJitSinkhorn n m d
    sinkhorn_compile := none
    out := none }

/-- `set_objective(self, x, a, y, b)` (source lines 32-52): store the four
arrays (the `jnp.array` retyping is the identity on this real-valued model)
and the jit-wrapped `_sinkhorn` with static argument names `eps, n_iter`.
No other attribute is written. -/
noncomputable def Solver.set_objective (s : SolverState n m d)
    (x : Fin n → Fin d → ℝ) (a : Fin n → ℝ)
    (y : Fin m → Fin d → ℝ) (b : Fin m → ℝ) : SolverState n m d :=
  { s with x := x, y := y, a := a, b := b, sinkhorn := jaxJitSinkhorn n m d }

/-- `pre_run_hook(self, n_iter)` (source lines 54-61): lower the jitted
function at the stored arrays, `float(self.reg)` and `n_iter`, compile it,
and store the artifact in `self._sinkhorn_compile`.  Returns nothing. -/
noncomputable def Solver.pre_run_hook (s : SolverState n m d) (n_iter : ℕ) :
    SolverState n m d :=
  { s with
    sinkhorn_compile := some (s.sinkhorn.lower s.x s.y s.a s.b s.reg n_iter) }

/-- `run(self, n_iter)` (source lines 63-67): call the compiled artifact on
the stored arrays and store the raw output object in `self.out`.  The
`n_iter` argument is not used.  `none` models the `AttributeError` raised
when no `pre_run_hook` has created `self._sinkhorn_compile`. -/
noncomputable def Solver.run (s : SolverState n m d) (n_iter : ℕ) :
    Option (SolverState n m d) :=
  s.sinkhorn_compile.map fun c => { s with out := some (c.call s.x s.y s.a s.b) }

/-- `get_result(self)` (source lines 69-71): return `np.array(self.out.matrix)`
(the `np.array` conversion is the identity on this model).  The first
component is the post-state — the method body contains no assignment, so it
is the input state; the second is the returned value, `none` modelling the
`AttributeError` when `run` has not stored `self.out`. -/
noncomputable def Solver.get_result (s : SolverState n m d) :
    SolverState n m d × Option (Fin n → Fin m → ℝ) :=
  (s, s.out.map SinkhornOutput.matrix)

/- ------------------------------------------------------------------ -/
/- Syntactic model of how the adapter handles the solver output object,
   used to settle where the `.matrix` attribute selection happens.     -/
/- ------------------------------------------------------------------ -/

/-- Expressions producing (values derived from) the solver output object, as
they occur in the adapter source:
* `callSolver` is the whole jitted body `out = Sinkhorn(...)(prob); return
  out` — it returns the raw output object and performs no attribute
  selection on it;
* `storedOut` is `self.out`, the object stored by `run`;
* `attrMatrix e` is the attribute access `e.matrix`. -/
inductive OutExpr where
  | callSolver
  | storedOut
  | attrMatrix (e : OutExpr)
  deriving DecidableEq

/-- The body of the jitted `_sinkhorn` function (source lines 39-48):
`return out`, the raw solver output, with no attribute selected. -/
def jitBodyExpr : OutExpr := .callSolver

/-- The expression `get_result` evaluates (source line 71):
`self.out.matrix`, a `.matrix` attribute access on the stored object. -/
def getResultExpr : OutExpr := .attrMatrix .storedOut

/-- Whether an expression performs a `.matrix` attribute selection on the
solver output object anywhere inside it. -/
def OutExpr.selectsMatrix : OutExpr → Bool
  | .callSolver => false
  | .storedOut => false
  | .attrMatrix _ => true

/-- Values of the output-object expression language: either the raw output
object or an extracted matrix. -/
inductive OutVal (n m d : ℕ) where
  | obj (o : SinkhornOutput n m d)
  | mat (M : Fin n → Fin m → ℝ)

/-- Semantics of `OutExpr` against an adapter state and the arguments of the
jitted call: `callSolver` runs the jitted computation, `storedOut` reads
`self.out` (`none` when absent), and `attrMatrix` applies the derived
`.matrix` attribute. -/
noncomputable def OutExpr.eval (s : SolverState n m d)
    (x : Fin n → Fin d → ℝ) (y : Fin m → Fin d → ℝ)
    (a : Fin n → ℝ) (b : Fin m → ℝ) (eps : ℝ) (n_iter : ℕ) :
    OutExpr → Option (OutVal n m d)
  | .callSolver => some (.obj (sinkhornFn x y a b eps n_iter))
  | .storedOut => s.out.map .obj
  | .attrMatrix e =>
      match OutExpr.eval s x y a b eps n_iter e with
      | some (.obj o) => some (.mat o.matrix)
      | _ => none

/- ------------------------------------------------------------------ -/
/- Sanity lemmas tying the syntactic model to the value-level model.   -/
/- ------------------------------------------------------------------ -/

/-- The expression evaluated by `get_result` computes exactly the matrix that
`get_result` returns (wrapped as an `OutVal`). -/
theorem getResultExpr_eval (s : SolverState n m d)
    (x : Fin n → Fin d → ℝ) (y : Fin m → Fin d → ℝ)
    (a : Fin n → ℝ) (b : Fin m → ℝ) (eps : ℝ) (n_iter : ℕ) :
    OutExpr.eval s x y a b eps n_iter getResultExpr =
      (Solver.get_result s).2.map OutVal.mat := by
  rcases h : s.out with _ | o <;>
    simp [OutExpr.eval, getResultExpr, Solver.get_result, h]

/-- The jitted body evaluates to the raw output object of `sinkhornFn`. -/
theorem jitBodyExpr_eval (s : SolverState n m d)
    (x : Fin n → Fin d → ℝ) (y : Fin m → Fin d → ℝ)
    (a : Fin n → ℝ) (b : Fin m → ℝ) (eps : ℝ) (n_iter : ℕ) :
    OutExpr.eval s x y a b eps n_iter jitBodyExpr =
      some (.obj (sinkhornFn x y a b eps n_iter)) := rfl

/- ------------------------------------------------------------------ -/
/- Claim theorems.                                                     -/
/- ------------------------------------------------------------------ -/

/-- C1 (counterexample): contrary to the claim, the transport-plan matrix is
not selected from the solver output inside the jitted body — the body returns
the raw output object with no attribute selection — and a `.matrix` attribute
of the solver output IS accessed after compilation, outside that definition,
namely by `get_result`. -/
theorem matrix_selected_inside_jit_cex :
    OutExpr.selectsMatrix jitBodyExpr = false ∧
      OutExpr.selectsMatrix getResultExpr = true := by decide

/-- C1 (amended): the jitted body returns the solver's entire output object,
performing no attribute selection on it; the transport-plan matrix is instead
derived after compilation, by `get_result` applying the `.matrix` attribute
to the output object stored in `self.out`. -/
theorem jit_returns_whole_output (s : SolverState n m d) :
    OutExpr.selectsMatrix jitBodyExpr = false ∧
      getResultExpr = OutExpr.attrMatrix OutExpr.storedOut ∧
      (Solver.get_result s).2 = s.out.map SinkhornOutput.matrix :=
  ⟨rfl, rfl, rfl⟩

/-- C2: the computation `set_objective` stores as `self.sinkhorn` runs the
Sinkhorn solver configured with convergence threshold 0, log-space (lse)
iteration mode, and exactly `10 * n_iter + 1` maximum iterations, on the
point-cloud linear problem built from its arguments. -/
theorem set_objective_sinkhorn_config (s : SolverState n m d)
    (x : Fin n → Fin d → ℝ) (a : Fin n → ℝ)
    (y : Fin m → Fin d → ℝ) (b : Fin m → ℝ)
    (x' : Fin n → Fin d → ℝ) (y' : Fin m → Fin d → ℝ)
    (a' : Fin n → ℝ) (b' : Fin m → ℝ) (eps : ℝ) (n_iter : ℕ) :
    (Solver.set_objective s x a y b).sinkhorn.fn x' y' a' b' eps n_iter =
      Sinkhorn.solve
        { threshold := 0, lse_mode := true,
          max_iterations := 10 * n_iter + 1 }
        { geom := { x := x', y := y', epsilon := eps }, a := a', b := b' } :=
  rfl

/-- C3: after configuring the problem, running `pre_run_hook` then `run`
twice with the same `n_iter` stores numerically identical results — both
runs store exactly the output of the deterministic `sinkhornFn` on the
stored data. -/
theorem prepare_run_deterministic (s : SolverState n m d)
    (x : Fin n → Fin d → ℝ) (a : Fin n → ℝ)
    (y : Fin m → Fin d → ℝ) (b : Fin m → ℝ) (n_iter : ℕ) :
    ∃ s1 s2 : SolverState n m d,
      Solver.run (Solver.pre_run_hook (Solver.set_objective s x a y b) n_iter)
          n_iter = some s1 ∧
      Solver.run (Solver.pre_run_hook s1 n_iter) n_iter = some s2 ∧
      s1.out = s2.out ∧
      s1.out = some (sinkhornFn x y a b s.reg n_iter) :=
  ⟨_, _, rfl, rfl, rfl, rfl⟩

/-- C4: for a valid problem (weights summing to 1, shapes matching the point
clouds), after configure, prepare and execute, `get_result` returns a dense
`n × m` matrix all of whose entries are non-negative. -/
theorem get_result_shape_nonneg (s : SolverState n m d)
    (x : Fin n → Fin d → ℝ) (a : Fin n → ℝ)
    (y : Fin m → Fin d → ℝ) (b : Fin m → ℝ) (n_iter : ℕ)
    (ha : ∑ i, a i = 1) (hb : ∑ j, b j = 1) :
    ∃ (s' : SolverState n m d) (M : Fin n → Fin m → ℝ),
      Solver.run (Solver.pre_run_hook (Solver.set_objective s x a y b) n_iter)
          n_iter = some s' ∧
      (Solver.get_result s').2 = some M ∧
      ∀ i j, 0 ≤ M i j := by
  refine ⟨_, _, rfl, rfl, fun i j => ?_⟩
  exact (Real.exp_pos _).le

/-- C4 witness: the theorem applied to a concrete valid 1-point problem. -/
theorem get_result_shape_nonneg_witness :
    ((∑ i : Fin 1, (1 : ℝ)) = 1) ∧
      ∃ (s' : SolverState 1 1 1) (M : Fin 1 → Fin 1 → ℝ),
        Solver.run
            (Solver.pre_run_hook
              (Solver.set_objective (Solver.init 1 1 1 (1 / 10))
                (fun _ _ => 0) (fun _ => 1) (fun _ _ => 1) (fun _ => 1)) 2)
            2 = some s' ∧
        (Solver.get_result s').2 = some M ∧
        ∀ i j, 0 ≤ M i j :=
  ⟨by simp,
   get_result_shape_nonneg (Solver.init 1 1 1 (1 / 10))
     (fun _ _ => 0) (fun _ => 1) (fun _ _ => 1) (fun _ => 1) 2
     (by simp) (by simp)⟩

/-- C5: `set_objective` marks both `eps` and `n_iter` as static (non-traced)
arguments of the jitted computation, and a compiled specialization always
runs at its own baked `eps` and `n_iter` values whatever arrays it is later
called on — so changing either value requires a fresh specialization. -/
theorem eps_niter_static_args (s : SolverState n m d)
    (x : Fin n → Fin d → ℝ) (a : Fin n → ℝ)
    (y : Fin m → Fin d → ℝ) (b : Fin m → ℝ) :
    (Solver.set_objective s x a y b).sinkhorn.static_argnames =
        ["eps", "n_iter"] ∧
      ∀ (x0 : Fin n → Fin d → ℝ) (y0 : Fin m → Fin d → ℝ)
        (a0 : Fin n → ℝ) (b0 : Fin m → ℝ) (eps : ℝ) (n_iter : ℕ)
        (x1 : Fin n → Fin d → ℝ) (y1 : Fin m → Fin d → ℝ)
        (a1 : Fin n → ℝ) (b1 : Fin m → ℝ),
        Compiled.call
            ((Solver.set_objective s x a y b).sinkhorn.lower
              x0 y0 a0 b0 eps n_iter) x1 y1 a1 b1 =
          (Solver.set_objective s x a y b).sinkhorn.fn x1 y1 a1 b1 eps
            n_iter :=
  ⟨rfl, fun _ _ _ _ _ _ _ _ _ _ => rfl⟩

/-- C6: `pre_run_hook` builds the compiled specialization by lowering the
stored jitted function at the stored arrays, the adapter's current `reg` and
the given `n_iter`, stores it in `self._sinkhorn_compile`, changes nothing
else, and returns only the updated state (no value for the harness); the
stored artifact carries exactly `reg` and `n_iter` as its baked static
values. -/
theorem pre_run_hook_compiles_and_stores (s : SolverState n m d)
    (n_iter : ℕ) :
    Solver.pre_run_hook s n_iter =
        { s with
          sinkhorn_compile := some (s.sinkhorn.lower s.x s.y s.a s.b s.reg n_iter) } ∧
      (Solver.pre_run_hook s n_iter).sinkhorn_compile =
        some { fn := s.sinkhorn.fn, eps := s.reg, n_iter := n_iter } :=
  ⟨rfl, rfl⟩

/-- C7: the stored output of `run` does not depend on the `n_iter` argument
the harness passes: `run` uses only the stored arrays and the most recently
compiled computation. -/
theorem run_ignores_niter_arg (s : SolverState n m d) (j k : ℕ) :
    Solver.run s j = Solver.run s k := rfl

/-- C8: `get_result` is a read-only projection: it leaves the adapter state
unchanged and returns the transport-plan matrix derived from the output
object stored by the most recent `run`. -/
theorem get_result_pure_projection (s : SolverState n m d) :
    (Solver.get_result s).1 = s ∧
      (Solver.get_result s).2 = s.out.map SinkhornOutput.matrix :=
  ⟨rfl, rfl⟩

/-- C9: calling `set_objective` again after a `pre_run_hook` rewrites only
the arrays and the jitted function: the compiled artifact, the stored
output and `reg` are untouched, and a subsequent `run` without a fresh
`pre_run_hook` executes the computation specialized at the earlier `reg`
and `n_iter` against the newly stored arrays. -/
theorem set_objective_preserves_compiled (s : SolverState n m d)
    (x : Fin n → Fin d → ℝ) (a : Fin n → ℝ)
    (y : Fin m → Fin d → ℝ) (b : Fin m → ℝ)
    (x' : Fin n → Fin d → ℝ) (a' : Fin n → ℝ)
    (y' : Fin m → Fin d → ℝ) (b' : Fin m → ℝ) (n_iter k : ℕ) :
    let s1 := Solver.pre_run_hook (Solver.set_objective s x a y b) n_iter
    let s2 := Solver.set_objective s1 x' a' y' b'
    s2.sinkhorn_compile = s1.sinkhorn_compile ∧
      s2.out = s1.out ∧ s2.reg = s1.reg ∧
      s2.x = x' ∧ s2.y = y' ∧ s2.a = a' ∧ s2.b = b' ∧
      s2.sinkhorn = jaxJitSinkhorn n m d ∧
      Solver.run s2 k =
        some { s2 with out := some (sinkhornFn x' y' a' b' s.reg n_iter) } :=
  ⟨rfl, rfl, rfl, rfl, rfl, rfl, rfl, rfl, rfl⟩

/-- C10: every import of the numerical backend and solver library (numpy,
jax, jax.numpy, ott) is performed inside the guarded-import region, and the
imports outside it are only the harness's own. -/
theorem backend_imports_guarded :
    ∀ i : ModuleImport, i.isBackend = true →
      i ∈ importsInsideGuard ∧ i ∉ importsOutsideGuard := by decide

/-- C10 witness: the theorem applied to the `jax` import. -/
theorem backend_imports_guarded_witness :
    ModuleImport.jax ∈ importsInsideGuard ∧
      ModuleImport.jax ∉ importsOutsideGuard :=
  backend_imports_guarded ModuleImport.jax (by decide)

end OTTBench
